import Mathlib

/-!
Verification of the `backend` module of the notify-rs backend-contract crate
(`src/backend/src/backend.rs`): the `Error` and `ErrorWrap` data model, the
`From` conversions into both, the `as_error_vec` flattening, the
retry-set recovery computation described in the crate documentation, and
the `Backend` trait's default `trait_version`.

Paths (`std::path::PathBuf`) are modelled as strings; `Arc<io::Error>` is
modelled by the wrapped value itself, since in a value-level semantics
reference-counted sharing is identity.
-/

namespace NotifyBackend

/-- Modelled from the spec: `Capability` lives in the companion `capability`
module, which is not part of the shown sources. The spec describes it as a
closed, platform-independent set of named features, compared by equality
only; the exact membership is owned by the companion module, so this
embedding lists the examples the spec names. -/
inductive Capability where
  | watchFolders
  | recursive
  | trackRename
  | followSymlinks
  deriving DecidableEq, Repr

/-- The kinds of `std::io::Error`. The source only discriminates on
`io::ErrorKind::NotFound` versus everything else, so this embedding keeps
`notFound` plus a sample of the other kinds. -/
inductive IoErrorKind where
  | notFound
  | permissionDenied
  | alreadyExists
  | other
  deriving DecidableEq, Repr

/-- A `std::io::Error`: a kind plus a payload standing for the rest of the
underlying condition (OS error code, message, wrapped source). Two values
are the same condition exactly when both components agree. -/
structure IoError where
  kind : IoErrorKind
  payload : String
  deriving DecidableEq, Repr

/-- `std::ffi::NulError`: a nul byte found during string conversion.
Carries the offending position and bytes. -/
structure NulError where
  position : Nat
  bytes : List Nat
  deriving DecidableEq, Repr

/-- `std::ffi::IntoStringError`: a UTF-8 failure converting a `CString`.
Carries the offending bytes. -/
structure IntoStringError where
  bytes : List Nat
  deriving DecidableEq, Repr

/-- `std::ffi::FromBytesWithNulError`: nul too early or absent. -/
structure FromBytesWithNulError where
  code : Nat
  deriving DecidableEq, Repr

/-- `PathBuf` modelled as a string. -/
abbrev PathBuf := String

/-- Any error which may occur during the initialisation of a `Backend`
(`enum Error` in `backend.rs`). -/
inductive Error where
  | generic (s : String)
  | io (e : IoError)
  | notImplemented
  | unavailable (reason : Option String)
  | nonExistent (paths : List PathBuf)
  | notSupported (cap : Capability)
  | ffiNul (e : NulError)
  | ffiIntoString (e : IntoStringError)
  | ffiFromBytes (e : FromBytesWithNulError)
  deriving DecidableEq, Repr

/-- `impl From<io::Error> for Error`: `NotFound` becomes
`NonExistent(vec![])`, every other kind becomes `Io(Arc::new(err))`. -/
def Error.fromIo (err : IoError) : Error :=
  match err.kind with
  | IoErrorKind.notFound => Error.nonExistent []
  | _ => Error.io err

/-- `impl From<Capability> for Error`. -/
def Error.fromCapability (cap : Capability) : Error :=
  Error.notSupported cap

/-- `impl From<ffi::NulError> for Error`. -/
def Error.fromNul (err : NulError) : Error :=
  Error.ffiNul err

/-- `impl From<ffi::IntoStringError> for Error`. -/
def Error.fromIntoString (err : IntoStringError) : Error :=
  Error.ffiIntoString err

/-- `impl From<ffi::FromBytesWithNulError> for Error`. -/
def Error.fromFromBytes (err : FromBytesWithNulError) : Error :=
  Error.ffiFromBytes err

/-- The composite error wrapper (`enum ErrorWrap` in `backend.rs`). -/
inductive ErrorWrap where
  | general (e : Error)
  | all (e : Error)
  | single (e : Error) (paths : List PathBuf)
  | multiple (entries : List (Error × List PathBuf))
  deriving DecidableEq, Repr

/-- `ErrorWrap::as_error_vec`: reduces to a set of errors, discarding all
path information. -/
def ErrorWrap.as_error_vec : ErrorWrap → List Error
  | ErrorWrap.multiple ve => ve.map Prod.fst
  | ErrorWrap.general err => [err]
  | ErrorWrap.all err => [err]
  | ErrorWrap.single err _ => [err]

/-- `impl From<Error> for ErrorWrap`. -/
def ErrorWrap.fromError (err : Error) : ErrorWrap :=
  ErrorWrap.general err

/-- `impl From<&Error> for ErrorWrap`: clones the referenced error; in a
value-level semantics the clone is the value itself. -/
def ErrorWrap.fromErrorRef (err : Error) : ErrorWrap :=
  ErrorWrap.general err

/-- `impl From<io::Error> for ErrorWrap`: converts to `Error` first, then
wraps via `From<Error>`. -/
def ErrorWrap.fromIo (err : IoError) : ErrorWrap :=
  ErrorWrap.fromError (Error.fromIo err)

/-- `impl From<Capability> for ErrorWrap`. -/
def ErrorWrap.fromCapability (cap : Capability) : ErrorWrap :=
  ErrorWrap.fromError (Error.fromCapability cap)

/-- `impl From<ffi::NulError> for ErrorWrap`. -/
def ErrorWrap.fromNul (err : NulError) : ErrorWrap :=
  ErrorWrap.fromError (Error.fromNul err)

/-- `impl From<ffi::IntoStringError> for ErrorWrap`. -/
def ErrorWrap.fromIntoString (err : IntoStringError) : ErrorWrap :=
  ErrorWrap.fromError (Error.fromIntoString err)

/-- `impl From<ffi::FromBytesWithNulError> for ErrorWrap`. -/
def ErrorWrap.fromFromBytes (err : FromBytesWithNulError) : ErrorWrap :=
  ErrorWrap.fromError (Error.fromFromBytes err)

/-- Whether an `ErrorWrap` is the `General` variant. -/
def ErrorWrap.isGeneral : ErrorWrap → Bool
  | ErrorWrap.general _ => true
  | _ => false

/-- The paths appearing in any affected subset of an `ErrorWrap`:
the subset of `Single`, the union of the subsets of `Multiple`, and
none for `General` and `All` (which carry no path list). -/
def ErrorWrap.subsetPaths : ErrorWrap → List PathBuf
  | ErrorWrap.general _ => []
  | ErrorWrap.all _ => []
  | ErrorWrap.single _ ps => ps
  | ErrorWrap.multiple ve => ve.flatMap Prod.snd

/-- Modelled from the spec: the frontend's "likely-to-succeed" retry-set
computation of §4.4 is frontend policy described in the crate docs, not a
function in the shown sources. All requested paths minus every path
appearing in any subset for `Multiple`/`Single`; empty for `All`; the
entire original set for `General`. -/
def retrySet (requested : List PathBuf) (w : ErrorWrap) : List PathBuf :=
  match w with
  | ErrorWrap.general _ => requested
  | ErrorWrap.all _ => []
  | ErrorWrap.single _ ps => requested.filter (fun p => ¬ p ∈ ps)
  | ErrorWrap.multiple ve =>
      requested.filter (fun p => ¬ p ∈ ve.flatMap Prod.snd)

/-- Whether every affected subset of an `ErrorWrap` holds pairwise-distinct
paths. `General` and `All` carry no subset, so they satisfy it trivially. -/
def ErrorWrap.subsetsUnique : ErrorWrap → Prop
  | ErrorWrap.general _ => True
  | ErrorWrap.all _ => True
  | ErrorWrap.single _ ps => ps.Nodup
  | ErrorWrap.multiple ve => ∀ en ∈ ve, (Prod.snd en).Nodup

instance : DecidablePred ErrorWrap.subsetsUnique := by
  intro w
  cases w <;> simp only [ErrorWrap.subsetsUnique] <;> infer_instance

/-- Modelled from the spec: the contract crate's own package version string
(`env!("CARGO_PKG_VERSION")` expanded inside the contract crate; the crate
manifest is not among the shown sources, so the concrete string is a fixed
unknown constant of the contract crate). -/
def cargoPkgVersion : String := "CARGO_PKG_VERSION-of-contract-crate"

/-- A backend implementation, as far as the type-level identity surface of
the `Backend` trait is concerned: its own name, its own release version,
and an optional override of `trait_version`. -/
structure BackendImpl where
  name : String
  ownReleaseVersion : String
  traitVersionOverride : Option String
  deriving DecidableEq, Repr

/-- `Backend::trait_version`: the default body returns
`env!("CARGO_PKG_VERSION")` of the contract crate; an implementation may
override it. -/
def BackendImpl.trait_version (b : BackendImpl) : String :=
  match b.traitVersionOverride with
  | some v => v
  | none => cargoPkgVersion

end NotifyBackend

namespace NotifyBackend

/-- C1: `as_error_vec` returns exactly one error (the wrapped one) for
`General`, `All` and `Single`, and for `Multiple(entries)` exactly the
errors of the entries, one per entry, in entry order, discarding paths. -/
theorem as_error_vec_spec :
    (∀ e : Error, (ErrorWrap.general e).as_error_vec = [e]) ∧
    (∀ e : Error, (ErrorWrap.all e).as_error_vec = [e]) ∧
    (∀ (e : Error) (ps : List PathBuf),
      (ErrorWrap.single e ps).as_error_vec = [e]) ∧
    (∀ ve : List (Error × List PathBuf),
      (ErrorWrap.multiple ve).as_error_vec = ve.map Prod.fst) := by
  refine ⟨fun e => rfl, fun e => rfl, fun e ps => rfl, fun ve => rfl⟩

/-- C2: converting an `io::Error` into `Error` yields `NonExistent(vec![])`
exactly when the kind is `NotFound`, and otherwise `Io` wrapping that exact
underlying error value. -/
theorem error_fromIo_spec (e : IoError) :
    (e.kind = IoErrorKind.notFound → Error.fromIo e = Error.nonExistent []) ∧
    (e.kind ≠ IoErrorKind.notFound → Error.fromIo e = Error.io e) := by
  constructor
  · intro h
    unfold Error.fromIo
    rw [h]
  · intro h
    unfold Error.fromIo
    cases hk : e.kind with
    | notFound => exact absurd hk h
    | permissionDenied => rfl
    | alreadyExists => rfl
    | other => rfl

/-- Witness for C2 at concrete inputs: a `NotFound` error and a
`PermissionDenied` error. -/
theorem error_fromIo_spec_witness :
    (Error.fromIo ⟨IoErrorKind.notFound, "gone"⟩ = Error.nonExistent []) ∧
    (Error.fromIo ⟨IoErrorKind.permissionDenied, "denied"⟩ =
      Error.io ⟨IoErrorKind.permissionDenied, "denied"⟩) := by
  refine ⟨(error_fromIo_spec ⟨IoErrorKind.notFound, "gone"⟩).1 rfl,
    (error_fromIo_spec ⟨IoErrorKind.permissionDenied, "denied"⟩).2 (by decide)⟩

/-- C3: the likely-to-succeed retry set is the requested set minus every
path appearing in any affected subset for `Single`/`Multiple`, empty for
`All`, and all of the requested set for `General`; in particular over
`[A, B, C]` with `Single(Generic("..."), [B])` it is `[A, C]`, and over
`[A, B]` with `General(Unavailable(Some("reason")))` it is `[A, B]`. -/
theorem retrySet_spec :
    (∀ (requested : List PathBuf) (e : Error) (ps : List PathBuf)
        (p : PathBuf),
      p ∈ retrySet requested (ErrorWrap.single e ps) ↔
        p ∈ requested ∧ ¬ p ∈ (ErrorWrap.single e ps).subsetPaths) ∧
    (∀ (requested : List PathBuf) (ve : List (Error × List PathBuf))
        (p : PathBuf),
      p ∈ retrySet requested (ErrorWrap.multiple ve) ↔
        p ∈ requested ∧ ¬ p ∈ (ErrorWrap.multiple ve).subsetPaths) ∧
    (∀ (requested : List PathBuf) (e : Error),
      retrySet requested (ErrorWrap.all e) = []) ∧
    (∀ (requested : List PathBuf) (e : Error),
      retrySet requested (ErrorWrap.general e) = requested) ∧
    retrySet ["A", "B", "C"]
      (ErrorWrap.single (Error.generic "...") ["B"]) = ["A", "C"] ∧
    retrySet ["A", "B"]
      (ErrorWrap.general (Error.unavailable (some "reason"))) = ["A", "B"] := by
  refine ⟨fun requested e ps p => ?_, fun requested ve p => ?_,
    fun requested e => rfl, fun requested e => rfl, by decide, rfl⟩
  · simp [retrySet, ErrorWrap.subsetPaths, List.mem_filter]
  · simp [retrySet, ErrorWrap.subsetPaths, List.mem_filter]

/-- C4: converting a `Capability` into `Error` yields `NotSupported(c)` and
into `ErrorWrap` yields `General(NotSupported(c))`, preserving the
capability value exactly. -/
theorem capability_conversions_spec (c : Capability) :
    Error.fromCapability c = Error.notSupported c ∧
    ErrorWrap.fromCapability c = ErrorWrap.general (Error.notSupported c) := by
  exact ⟨rfl, rfl⟩

/-- C5: the `io::Error → ErrorWrap` conversion factors through the
`io::Error → Error` conversion under `General`; only `NotFound` becomes
`NonExistent` and every other condition is surfaced verbatim inside
`General(Io(...))`. -/
theorem errorWrap_fromIo_spec (e : IoError) :
    ErrorWrap.fromIo e = ErrorWrap.general (Error.fromIo e) ∧
    (e.kind = IoErrorKind.notFound →
      ErrorWrap.fromIo e = ErrorWrap.general (Error.nonExistent [])) ∧
    (e.kind ≠ IoErrorKind.notFound →
      ErrorWrap.fromIo e = ErrorWrap.general (Error.io e)) := by
  refine ⟨rfl, ?_, ?_⟩
  · intro h
    show ErrorWrap.general (Error.fromIo e) = _
    rw [(error_fromIo_spec e).1 h]
  · intro h
    show ErrorWrap.general (Error.fromIo e) = _
    rw [(error_fromIo_spec e).2 h]

/-- Witness for C5 at concrete inputs: one `NotFound` error and one
`AlreadyExists` error. -/
theorem errorWrap_fromIo_spec_witness :
    ErrorWrap.fromIo ⟨IoErrorKind.notFound, "x"⟩ =
      ErrorWrap.general (Error.nonExistent []) ∧
    ErrorWrap.fromIo ⟨IoErrorKind.alreadyExists, "y"⟩ =
      ErrorWrap.general (Error.io ⟨IoErrorKind.alreadyExists, "y"⟩) := by
  exact ⟨(errorWrap_fromIo_spec ⟨IoErrorKind.notFound, "x"⟩).2.1 rfl,
    (errorWrap_fromIo_spec ⟨IoErrorKind.alreadyExists, "y"⟩).2.2 (by decide)⟩

/-- C6 counterexample: the claim that every `Single`/`Multiple` value has
unique paths within each subset is false: `Single(NotImplemented, [p, p])`
is a legal `ErrorWrap` value whose subset repeats the path `p`. -/
theorem subsetsUnique_counterexample :
    ¬ (ErrorWrap.single Error.notImplemented ["p", "p"]).subsetsUnique := by
  simp [ErrorWrap.subsetsUnique]

/-- C6 (amended): uniqueness of paths within a subset is a soft
expectation, not an enforced invariant: the `ErrorWrap` type admits
`Single`/`Multiple` values whose subsets contain duplicate paths. -/
theorem subsetsUnique_not_enforced :
    ∃ w : ErrorWrap,
      (∃ e ps, w = ErrorWrap.single e ps) ∧ ¬ w.subsetsUnique := by
  refine ⟨ErrorWrap.single Error.notImplemented ["p", "p"],
    ⟨Error.notImplemented, ["p", "p"], rfl⟩, ?_⟩
  simp [ErrorWrap.subsetsUnique]

/-- C7: every backend implementation that does not override it gets the
same `trait_version` string, namely the contract crate's own package
version, independent of the implementation's own release version. -/
theorem trait_version_spec (b : BackendImpl)
    (hb : b.traitVersionOverride = none) :
    b.trait_version = cargoPkgVersion ∧
    (∀ b' : BackendImpl, b'.traitVersionOverride = none →
      b'.trait_version = b.trait_version) := by
  constructor
  · unfold BackendImpl.trait_version
    rw [hb]
  · intro b' hb'
    unfold BackendImpl.trait_version
    rw [hb, hb']

/-- Witness for C7: two distinct implementations with distinct release
versions and no override report the same contract version. -/
theorem trait_version_spec_witness :
    (BackendImpl.mk "official/inotify" "5.0.0" none).trait_version =
        cargoPkgVersion ∧
    (∀ b' : BackendImpl, b'.traitVersionOverride = none →
      b'.trait_version =
        (BackendImpl.mk "official/inotify" "5.0.0" none).trait_version) :=
  trait_version_spec (BackendImpl.mk "official/inotify" "5.0.0" none) rfl

/-- C9: every `From` conversion into `ErrorWrap` provided by the module
(from `Error`, `&Error`, `io::Error`, `Capability`, and the three FFI
error types) produces the `General` variant; none constructs `All`,
`Single` or `Multiple`. -/
theorem errorWrap_conversions_general :
    (∀ e : Error, (ErrorWrap.fromError e).isGeneral = true) ∧
    (∀ e : Error, (ErrorWrap.fromErrorRef e).isGeneral = true) ∧
    (∀ e : IoError, (ErrorWrap.fromIo e).isGeneral = true) ∧
    (∀ c : Capability, (ErrorWrap.fromCapability c).isGeneral = true) ∧
    (∀ e : NulError, (ErrorWrap.fromNul e).isGeneral = true) ∧
    (∀ e : IntoStringError, (ErrorWrap.fromIntoString e).isGeneral = true) ∧
    (∀ e : FromBytesWithNulError,
      (ErrorWrap.fromFromBytes e).isGeneral = true) :=
  ⟨fun _ => rfl, fun _ => rfl, fun _ => rfl, fun _ => rfl,
    fun _ => rfl, fun _ => rfl, fun _ => rfl⟩

/-- C10: flattening `Multiple(entries)` yields exactly one error per entry,
so its length equals the number of entries; in particular `Multiple([])`
flattens to no errors at all. -/
theorem as_error_vec_multiple_length :
    (∀ ve : List (Error × List PathBuf),
      (ErrorWrap.multiple ve).as_error_vec.length = ve.length) ∧
    (ErrorWrap.multiple []).as_error_vec = [] := by
  refine ⟨fun ve => ?_, rfl⟩
  simp [ErrorWrap.as_error_vec]

end NotifyBackend
